import Mathlib

/-!
# Verification of the authenticated API-client subsystem

Shallow embedding of the frontend auth/security layer of the repository:

* `storage`        — `src/front-files/src/utils/constants.js` (storage.js section)
* `authProvider`   — the login storage effect of `AuthProvider.login` (AuthContext)
* the axios response interceptor — `src/front-files/src/api/axios.js`
* `rateLimiter`    — the sliding-window limiter of validation.js
* `security`       — threat detectors of validation.js / security.js and `sanitizeInput`
* `sessionManager` — idle-session monitoring of security.js

Timestamps are modelled as `Int` epoch milliseconds.  The browser event loop
is single-threaded, so each synchronous segment of an interceptor callback is
modelled as one atomic state transition.
-/

/-! ## CredentialStore (storage.js) -/

/-- The persisted auth fields (`localStorage` keys `access_token`,
`refresh_token`, `user_data`, `session_expiry`). -/
structure Storage where
  accessToken : Option String
  refreshToken : Option String
  userData : Option String
  sessionExpiry : Option Int
deriving Repr, DecidableEq

namespace storage

/-- `storage.isSessionExpired`: no stored expiry counts as expired, otherwise
`new Date() > expiry`. -/
def isSessionExpired (now : Int) (st : Storage) : Bool :=
  match st.sessionExpiry with
  | none => true
  | some expiry => decide (expiry < now)

/-- `storage.clearAuth`: removes all four keys. -/
def clearAuth (_st : Storage) : Storage :=
  ⟨none, none, none, none⟩

/-- `storage.isAuthenticated`: token, user data and a non-expired session. -/
def isAuthenticated (now : Int) (st : Storage) : Bool :=
  st.accessToken.isSome && st.userData.isSome && !(isSessionExpired now st)

end storage

/-! ## AuthProvider.login storage effect (AuthContext) -/

namespace authProvider

/-- The storage writes performed by a successful `login`: set the access
token, set the refresh token only when the response carries one, set the user
data, and set `session_expiry` to `now + expiresIn` seconds
(`expiry.setSeconds(expiry.getSeconds() + expiresIn)`). -/
def loginStore (accessToken : String) (refreshToken : Option String)
    (userData : String) (expiresIn : Int) (now : Int) (st : Storage) : Storage :=
  { accessToken := some accessToken
    refreshToken :=
      match refreshToken with
      | some t => some t
      | none => st.refreshToken
    userData := some userData
    sessionExpiry := some (now + expiresIn * 1000) }

end authProvider

/-! ## Axios response interceptor (axios.js)

Module state of axios.js (`isRefreshing`, `failedQueue`) together with the
per-request `_retry` flags, the storage, and observable effects (refresh
network calls, resolutions, rejections, redirects).  Requests are identified
by `Nat` ids; `retriedSet` holds the ids whose config has `_retry = true`. -/

structure InterceptorState where
  isRefreshing : Bool
  failedQueue : List Nat
  retriedSet : List Nat
  refreshCalls : Nat
  resolvedWith : List (Nat × String)
  rejected : List Nat
  store : Storage
  redirects : Nat
deriving Repr, DecidableEq

/-- Fresh module state over a given storage. -/
def initialInterceptorState (st : Storage) : InterceptorState :=
  ⟨false, [], [], 0, [], [], st, 0⟩

/-- The synchronous segment of the response-error interceptor run for a 401
response on request `req` (axios.js lines 55–82):

* `_retry` already set → fall through to `Promise.reject(error)`;
* `isRefreshing` → push the request onto `failedQueue`;
* otherwise set `_retry`, set `isRefreshing`, and either fail fast when no
  refresh token is stored (reject the queue, clear auth, redirect — note the
  code never reaches the `finally`, so `isRefreshing` stays `true`), or issue
  the single `axios.post` refresh call and suspend. -/
def handle401 (req : Nat) (s : InterceptorState) : InterceptorState :=
  if s.retriedSet.contains req then
    { s with rejected := s.rejected ++ [req] }
  else if s.isRefreshing then
    { s with failedQueue := s.failedQueue ++ [req] }
  else
    let s1 := { s with retriedSet := s.retriedSet ++ [req], isRefreshing := true }
    match s1.store.refreshToken with
    | none =>
        { s1 with
          rejected := s1.rejected ++ s1.failedQueue ++ [req]
          failedQueue := []
          store := storage.clearAuth s1.store
          redirects := s1.redirects + 1 }
    | some _ =>
        { s1 with refreshCalls := s1.refreshCalls + 1 }

/-- The synchronous segment run when the refresh call issued for `trigger`
resolves successfully (axios.js lines 84–99 and the `finally`): store the new
access token, the new refresh token when present, expiry = now + 1 hour;
resolve every queued request FIFO with the new token; replay the trigger with
the new token; reset `isRefreshing`. -/
def refreshSuccess (trigger : Nat) (accessToken : String)
    (newRefreshToken : Option String) (now : Int) (s : InterceptorState) :
    InterceptorState :=
  { s with
    store :=
      { s.store with
        accessToken := some accessToken
        refreshToken :=
          match newRefreshToken with
          | some t => some t
          | none => s.store.refreshToken
        sessionExpiry := some (now + 3600000) }
    resolvedWith :=
      s.resolvedWith ++ s.failedQueue.map (fun r => (r, accessToken))
        ++ [(trigger, accessToken)]
    failedQueue := []
    isRefreshing := false }

/-- The synchronous segment run when the refresh call issued for `trigger`
fails (axios.js lines 101–108): reject the whole queue and the trigger, clear
auth, redirect, reset `isRefreshing`. -/
def refreshFailure (trigger : Nat) (s : InterceptorState) : InterceptorState :=
  { s with
    rejected := s.rejected ++ s.failedQueue ++ [trigger]
    failedQueue := []
    store := storage.clearAuth s.store
    redirects := s.redirects + 1
    isRefreshing := false }

/-- Run the 401 handlers of a batch of requests in event-loop order. -/
def runConcurrent401s (reqs : List Nat) (s : InterceptorState) : InterceptorState :=
  reqs.foldl (fun st r => handle401 r st) s

/-! ## RateLimiter (validation.js) -/

namespace rateLimiter

/-- The `attempts` map, `Map<string, number[]>`, as an association list. -/
abbrev AttemptMap := List (String × List Int)

/-- `attempts.get(key) || []`. -/
def getAttempts (m : AttemptMap) (key : String) : List Int :=
  match m.find? (fun p => p.1 = key) with
  | some p => p.2
  | none => []

/-- `attempts.set(key, v)`. -/
def setAttempts (m : AttemptMap) (key : String) (v : List Int) : AttemptMap :=
  if m.any (fun p => p.1 = key) then
    m.map (fun p => if p.1 = key then (key, v) else p)
  else
    m ++ [(key, v)]

/-- `rateLimiter.isBlocked`: prune attempts outside the window, write the
pruned list back, and report whether at least `maxAttempts` remain.  Returns
the decision together with the updated map. -/
def isBlocked (m : AttemptMap) (key : String) (maxAttempts : Nat)
    (windowMs : Int) (now : Int) : Bool × AttemptMap :=
  let attempts := getAttempts m key
  let recentAttempts := attempts.filter (fun time => decide (now - time < windowMs))
  (decide (maxAttempts ≤ recentAttempts.length), setAttempts m key recentAttempts)

/-- `rateLimiter.recordAttempt`: append the current timestamp. -/
def recordAttempt (m : AttemptMap) (key : String) (now : Int) : AttemptMap :=
  setAttempts m key (getAttempts m key ++ [now])

/-- `Math.min(...attempts)` over a nonempty list (0 on the empty list, which
the caller rules out). -/
def listMin : List Int → Int
  | [] => 0
  | a :: rest => rest.foldl min a

/-- `rateLimiter.getRemainingTime`: 0 when no attempts are recorded,
otherwise `max(0, windowMs - (now - Math.min(...attempts)))`.  Note: no
pruning happens here; the minimum ranges over all recorded attempts. -/
def getRemainingTime (m : AttemptMap) (key : String) (windowMs : Int)
    (now : Int) : Int :=
  let attempts := getAttempts m key
  if attempts.length = 0 then 0
  else
    let oldestAttempt := listMin attempts
    let elapsed := now - oldestAttempt
    max 0 (windowMs - elapsed)

/-- Modelled from the spec: `getRemainingTime(key, windowMs)` "prunes
timestamps older than windowMs on the read and returns
max(0, windowMs - (now - oldest attempt still within the window)), or 0 if no
attempts are recorded".  Used to compare the spec's formula with the code. -/
def specRemainingTime (m : AttemptMap) (key : String) (windowMs : Int)
    (now : Int) : Int :=
  let recent := (getAttempts m key).filter (fun time => decide (now - time < windowMs))
  if recent.length = 0 then 0
  else max 0 (windowMs - (now - listMin recent))

end rateLimiter

/-! ## ThreatScreen (validation.js `security`, security.js) -/

namespace security

/-- JS `\w` (ASCII word character). -/
def isWordChar (c : Char) : Bool :=
  c.isAlpha || c.isDigit || c = '_'

/-- JS `\s`: whitespace and line terminators. -/
def jsSpace (c : Char) : Bool :=
  c = '\x09' || c = '\x0a' || c = '\x0b' || c = '\x0c' || c = '\x0d' ||
  c = ' ' || c = Char.ofNat 0xa0 || c = Char.ofNat 0x1680 ||
  (decide (0x2000 ≤ c.toNat) && decide (c.toNat ≤ 0x200a)) ||
  c = Char.ofNat 0x2028 || c = Char.ofNat 0x2029 || c = Char.ofNat 0x202f ||
  c = Char.ofNat 0x205f || c = Char.ofNat 0x3000 || c = Char.ofNat 0xfeff

/-- JS `.` (without the `s` flag): anything but a line terminator. -/
def jsDot (c : Char) : Bool :=
  !(c = '\x0a' || c = '\x0d' || c = Char.ofNat 0x2028 || c = Char.ofNat 0x2029)

/-- Does `pat` occur as a contiguous substring of the character list? -/
def containsSub (pat : List Char) : List Char → Bool
  | [] => pat.isEmpty
  | c :: cs => pat.isPrefixOf (c :: cs) || containsSub pat cs

/-- Is some character of the list in the given set? -/
def containsAnyChar (set : List Char) (l : List Char) : Bool :=
  l.any (fun c => set.contains c)

/-- Does the list start with `kw` (case-insensitively) followed by a word
boundary (end of input or a non-word character)?  `kw` itself consists of
word characters, so only the right boundary needs checking here. -/
def keywordHere (kw : List Char) (l : List Char) : Bool :=
  ((kw.map Char.toLower).isPrefixOf (l.map Char.toLower)) &&
    (match l.drop kw.length with
     | [] => true
     | c :: _ => !isWordChar c)

/-- The keywords of the first SQL-injection pattern
`\b(SELECT|INSERT|UPDATE|DELETE|DROP|CREATE|ALTER|EXEC|UNION)\b` (i-flag). -/
def sqlKeywords : List (List Char) :=
  ["SELECT", "INSERT", "UPDATE", "DELETE", "DROP", "CREATE", "ALTER",
   "EXEC", "UNION"].map String.toList

/-- Scan for a keyword occurrence whose left neighbour is not a word
character (the `\b` on the left); `prevWord` records whether the previous
character was a word character. -/
def keywordScan (prevWord : Bool) : List Char → Bool
  | [] => false
  | c :: cs =>
      (!prevWord && sqlKeywords.any (fun kw => keywordHere kw (c :: cs)))
      || keywordScan (isWordChar c) cs

/-- `security.hasSQLInjection` (validation.js; identical patterns in
security.js `detectThreats`): falsy input is safe, otherwise the three
patterns — keyword with word boundaries, SQL comment markers
`--` `*/` `/*`, and the character class `['";\x00\x1a]`. -/
def hasSQLInjection (value : String) : Bool :=
  if value = "" then false
  else
    keywordScan false value.toList
    || containsSub "--".toList value.toList
    || containsSub "*/".toList value.toList
    || containsSub "/*".toList value.toList
    || containsAnyChar ['\'', '"', ';', '\x00', '\x1a'] value.toList

/-- After `<script`, the regex `[^>]*>` consumes everything up to the first
`>`; return the remainder after that `>`. -/
def afterFirstGt : List Char → Option (List Char)
  | [] => none
  | c :: cs => if c = '>' then some cs else afterFirstGt cs

/-- Search for `</script>` (on an already-lowercased list) reachable through
`.*?` — i.e. without crossing a line terminator. -/
def scriptCloseSearch : List Char → Bool
  | [] => false
  | c :: cs =>
      ("</script>".toList).isPrefixOf (c :: cs)
      || (jsDot c && scriptCloseSearch cs)

/-- Existence of a match of `<script[^>]*>.*?<\/script>` on an
already-lowercased list. -/
def scriptTagScan : List Char → Bool
  | [] => false
  | c :: cs =>
      (if ("<script".toList).isPrefixOf (c :: cs) then
        match afterFirstGt ((c :: cs).drop 7) with
        | some rest => scriptCloseSearch rest
        | none => false
      else false)
      || scriptTagScan cs

/-- `\w+\s*=` after the literal `on`: at least one word character
(`seenOne`), then optional whitespace, then `=`. -/
def spacesThenEq : List Char → Bool
  | [] => false
  | c :: cs => if c = '=' then true else jsSpace c && spacesThenEq cs

/-- Word characters followed by `\s*=`. -/
def wordCharsThenEq (seenOne : Bool) : List Char → Bool
  | [] => false
  | c :: cs =>
      if isWordChar c then wordCharsThenEq true cs
      else seenOne && spacesThenEq (c :: cs)

/-- Existence of a match of `on\w+\s*=` on an already-lowercased list. -/
def onHandlerScan : List Char → Bool
  | [] => false
  | c :: cs =>
      (if ("on".toList).isPrefixOf (c :: cs) then
        wordCharsThenEq false ((c :: cs).drop 2)
      else false)
      || onHandlerScan cs

/-- `security.hasXSS` (validation.js; identical patterns in security.js):
script tags, `javascript:` URIs, inline event handlers, and
`iframe`/`object`/`embed` tags, all case-insensitive. -/
def hasXSS (value : String) : Bool :=
  if value = "" then false
  else
    let low := value.toList.map Char.toLower
    scriptTagScan low
    || containsSub "javascript:".toList low
    || onHandlerScan low
    || containsSub "<iframe".toList low
    || containsSub "<object".toList low
    || containsSub "<embed".toList low

/-- `security.hasPathTraversal`: `../` or `..\`. -/
def hasPathTraversal (value : String) : Bool :=
  if value = "" then false
  else
    containsSub "../".toList value.toList
    || containsSub "..\\".toList value.toList

/-- `security.isSecure` (validation.js): the conjunction of the negations of
the three detectors defined alongside it — SQL injection, XSS and path
traversal.  (The command-injection check exists only in security.js
`detectThreats` and is not consulted here.) -/
def isSecure (value : String) : Bool :=
  !hasSQLInjection value && !hasXSS value && !hasPathTraversal value

/-- The command-injection detector of security.js `detectThreats`: the
character class `[;&|`$(){}[\]\\]`. -/
def hasCommandInjection (value : String) : Bool :=
  containsAnyChar (";&|`$()\x7b\x7d[]\\".toList) value.toList

/-- The characters `sanitizeInput` encodes: the class `[<>'"&]`. -/
def isSpecialChar (c : Char) : Bool :=
  c = '<' || c = '>' || c = '\'' || c = '"' || c = '&'

/-- The entity table of `sanitizeInput`. -/
def entityFor (c : Char) : List Char :=
  if c = '<' then "&lt;".toList
  else if c = '>' then "&gt;".toList
  else if c = '"' then "&quot;".toList
  else if c = '\'' then "&#x27;".toList
  else if c = '&' then "&amp;".toList
  else [c]

/-- `input.replace(/[<>'"&]/g, char => entities[char])`. -/
def encodeChars : List Char → List Char
  | [] => []
  | c :: cs => entityFor c ++ encodeChars cs

/-- `String.prototype.trim`: strip whitespace from both ends. -/
def trimChars (l : List Char) : List Char :=
  ((l.dropWhile jsSpace).reverse.dropWhile jsSpace).reverse

/-- `security.sanitizeInput` (security.js): entity-encode `< > " ' &`, then
trim. -/
def sanitizeInput (s : String) : String :=
  String.mk (trimChars (encodeChars s.toList))

/-- The entity sequences `sanitizeInput` produces; "pre-existing entity
sequences" in the idempotence claim are occurrences of these. -/
def containsEntity (s : String) : Bool :=
  (["&lt;", "&gt;", "&quot;", "&#x27;", "&amp;"].map String.toList).any
    (fun e => containsSub e s.toList)

end security

/-! ## SessionMonitor (security.js `sessionManager`) -/

/-- `SECURITY_CONFIG.SESSION.MAX_IDLE_TIME` (30 minutes, in ms). -/
def MAX_IDLE_TIME : Int := 30 * 60 * 1000

/-- `SECURITY_CONFIG.SESSION.TIMEOUT_WARNING` (5 minutes, in ms). -/
def TIMEOUT_WARNING : Int := 5 * 60 * 1000

/-- Monitor state: the persisted `lastActivity` value and counters of the
`onExpiry` / `onWarning` callback invocations. -/
structure MonitorState where
  lastActivity : Option Int
  expiryCalls : Nat
  warningCalls : Nat
deriving Repr, DecidableEq

namespace sessionManager

/-- `sessionManager.isSessionExpired`: true when no activity is recorded or
the idle time exceeds `MAX_IDLE_TIME`. -/
def isSessionExpired (now : Int) (st : MonitorState) : Bool :=
  match st.lastActivity with
  | none => true
  | some t => decide (MAX_IDLE_TIME < now - t)

/-- `sessionManager.getTimeUntilExpiry`. -/
def getTimeUntilExpiry (now : Int) (st : MonitorState) : Int :=
  match st.lastActivity with
  | none => 0
  | some t => max 0 (MAX_IDLE_TIME - (now - t))

/-- One invocation of `checkSession` inside `initSessionMonitoring`: on
expiry call `onExpiry` and return (the interval itself is NOT cleared here —
only the returned cleanup function clears it); otherwise possibly warn. -/
def checkSession (now : Int) (st : MonitorState) : MonitorState :=
  if isSessionExpired now st then
    { st with expiryCalls := st.expiryCalls + 1 }
  else if getTimeUntilExpiry now st ≤ TIMEOUT_WARNING then
    { st with warningCalls := st.warningCalls + 1 }
  else st

/-- The periodic interval firing `checkSession` at the given instants, in
order, while monitoring stays active (no user activity in between). -/
def runChecks (ticks : List Int) (st : MonitorState) : MonitorState :=
  ticks.foldl (fun s t => checkSession t s) st

end sessionManager

/-! ## Helper lemmas -/

theorem foldl_min_le_init (l : List Int) (a : Int) : l.foldl min a ≤ a := by
  induction l generalizing a with
  | nil => simp
  | cons b t ih =>
    rw [List.foldl_cons]
    exact le_trans (ih (min a b)) (min_le_left a b)

theorem foldl_min_le_mem (l : List Int) (a t : Int) (h : t ∈ l) :
    l.foldl min a ≤ t := by
  induction l generalizing a with
  | nil => cases h
  | cons b tl ih =>
    rw [List.foldl_cons]
    rcases List.mem_cons.mp h with rfl | h2
    · exact le_trans (foldl_min_le_init tl (min a t)) (min_le_right a t)
    · exact ih (min a b) h2

theorem listMin_le_mem (l : List Int) (t : Int) (h : t ∈ l) :
    rateLimiter.listMin l ≤ t := by
  match l, h with
  | a :: rest, h =>
    show rest.foldl min a ≤ t
    rcases List.mem_cons.mp h with rfl | h2
    · exact foldl_min_le_init rest t
    · exact foldl_min_le_mem rest a t h2

/-! ## C3: getRemainingTime and the sliding window -/

/-- C3 counterexample: with attempts at 0 and 800000 for key "k",
window 900000 and now = 1000000, the code returns 0 while the spec's
prune-then-measure formula gives 700000 — the stale attempt at 0 changes the
returned remaining time. -/
theorem stale_attempt_changes_remaining_time :
    rateLimiter.getRemainingTime
        (rateLimiter.recordAttempt (rateLimiter.recordAttempt [] "k" 0) "k" 800000)
        "k" 900000 1000000 = 0 ∧
    rateLimiter.specRemainingTime
        (rateLimiter.recordAttempt (rateLimiter.recordAttempt [] "k" 0) "k" 800000)
        "k" 900000 1000000 = 700000 := by
  decide

/-- C3 amended: `getRemainingTime` does not prune; it measures from the
oldest of ALL recorded attempts.  When no recorded attempt is stale it agrees
with the spec's prune-then-measure formula, but as soon as one stale attempt
exists it returns 0. -/
theorem getRemainingTime_ignores_window (m : rateLimiter.AttemptMap)
    (key : String) (windowMs now : Int) :
    ((∀ t ∈ rateLimiter.getAttempts m key, now - t < windowMs) →
      rateLimiter.getRemainingTime m key windowMs now =
        rateLimiter.specRemainingTime m key windowMs now) ∧
    ((∃ t ∈ rateLimiter.getAttempts m key, windowMs ≤ now - t) →
      rateLimiter.getRemainingTime m key windowMs now = 0) := by
  constructor
  · intro h
    unfold rateLimiter.getRemainingTime rateLimiter.specRemainingTime
    have hf : (rateLimiter.getAttempts m key).filter
        (fun time => decide (now - time < windowMs)) = rateLimiter.getAttempts m key :=
      List.filter_eq_self.mpr (fun t ht => decide_eq_true (h t ht))
    rw [hf]
  · rintro ⟨t, ht, hstale⟩
    unfold rateLimiter.getRemainingTime
    have hne : (rateLimiter.getAttempts m key).length ≠ 0 :=
      List.length_pos.mpr (List.ne_nil_of_mem ht) |>.ne'
    rw [if_neg hne]
    have hmin : rateLimiter.listMin (rateLimiter.getAttempts m key) ≤ t :=
      listMin_le_mem _ t ht
    exact max_eq_left (by omega)

/-- Witness for the C3 theorem at a concrete input: a single fresh attempt at
0, window 900000, now = 1000. -/
theorem getRemainingTime_ignores_window_witness :
    (∀ t ∈ rateLimiter.getAttempts (rateLimiter.recordAttempt [] "k" 0) "k",
      (1000 : Int) - t < 900000) ∧
    rateLimiter.getRemainingTime (rateLimiter.recordAttempt [] "k" 0) "k" 900000 1000 =
      rateLimiter.specRemainingTime (rateLimiter.recordAttempt [] "k" 0) "k" 900000 1000 :=
  ⟨by decide, (getRemainingTime_ignores_window (rateLimiter.recordAttempt [] "k" 0)
      "k" 900000 1000).1 (by decide)⟩

/-! ## C9: rate-limiter boundary -/

/-- C9: after recording exactly 5 attempts for key "login" at t = 0, with
maxAttempts = 5 and window 900000 ms, `isBlocked` at t = 1000 returns true
and `getRemainingTime` returns 899000; after only 4 attempts, `isBlocked`
returns false. -/
theorem rate_limiter_boundary :
    (rateLimiter.isBlocked
        (rateLimiter.recordAttempt (rateLimiter.recordAttempt
          (rateLimiter.recordAttempt (rateLimiter.recordAttempt
            (rateLimiter.recordAttempt [] "login" 0) "login" 0) "login" 0)
          "login" 0) "login" 0)
        "login" 5 900000 1000).1 = true ∧
    rateLimiter.getRemainingTime
        (rateLimiter.recordAttempt (rateLimiter.recordAttempt
          (rateLimiter.recordAttempt (rateLimiter.recordAttempt
            (rateLimiter.recordAttempt [] "login" 0) "login" 0) "login" 0)
          "login" 0) "login" 0)
        "login" 900000 1000 = 899000 ∧
    (rateLimiter.isBlocked
        (rateLimiter.recordAttempt (rateLimiter.recordAttempt
          (rateLimiter.recordAttempt (rateLimiter.recordAttempt [] "login" 0)
            "login" 0) "login" 0) "login" 0)
        "login" 5 900000 1000).1 = false := by
  decide

/-! ## C10: missing session expiry -/

/-- C10: when no `session_expiry` value is stored, `storage.isSessionExpired`
returns true, and hence `storage.isAuthenticated` returns false, no matter
what else is stored. -/
theorem missing_expiry_means_unauthenticated (st : Storage) (now : Int)
    (h : st.sessionExpiry = none) :
    storage.isSessionExpired now st = true ∧
    storage.isAuthenticated now st = false := by
  have he : storage.isSessionExpired now st = true := by
    unfold storage.isSessionExpired
    rw [h]
  refine ⟨he, ?_⟩
  unfold storage.isAuthenticated
  rw [he]
  simp

/-- Witness for C10: access token and user record both present, no stored
expiry. -/
theorem missing_expiry_means_unauthenticated_witness :
    ((⟨some "tok", some "ref", some "user", none⟩ : Storage).sessionExpiry = none) ∧
    (storage.isSessionExpired 0 ⟨some "tok", some "ref", some "user", none⟩ = true ∧
     storage.isAuthenticated 0 ⟨some "tok", some "ref", some "user", none⟩ = false) :=
  ⟨rfl, missing_expiry_means_unauthenticated _ 0 rfl⟩

/-! ## C5: isSecure and the four detectors -/

/-- C5 counterexample: the string "a|b" contains a shell metacharacter, so
`hasCommandInjection` fires, yet `isSecure` returns true — `isSecure` is not
the conjunction of the negations of all four detectors. -/
theorem isSecure_ignores_command_injection :
    ¬ (security.isSecure "a|b" = true ↔
      (security.hasSQLInjection "a|b" = false ∧
       security.hasXSS "a|b" = false ∧
       security.hasPathTraversal "a|b" = false ∧
       security.hasCommandInjection "a|b" = false)) := by
  decide

/-- C5 amended: `isSecure` is true iff none of the THREE detectors defined
beside it fire — SQL injection, XSS and path traversal; the
command-injection detector of `detectThreats` is not consulted. -/
theorem isSecure_iff_three_detectors (s : String) :
    security.isSecure s = true ↔
      (security.hasSQLInjection s = false ∧
       security.hasXSS s = false ∧
       security.hasPathTraversal s = false) := by
  unfold security.isSecure
  simp [Bool.and_eq_true, Bool.not_eq_true']
  tauto

/-! ## C6: sanitize idempotence -/

theorem dropWhile_idem (p : Char → Bool) (l : List Char) :
    (l.dropWhile p).dropWhile p = l.dropWhile p := by
  induction l with
  | nil => rfl
  | cons c t ih =>
    by_cases h : p c
    · rw [List.dropWhile_cons_of_pos h]
      exact ih
    · rw [List.dropWhile_cons_of_neg h, List.dropWhile_cons_of_neg h]

theorem dropWhile_prefix_fixed (p : Char → Bool) (l m : List Char)
    (h : m <+: l.dropWhile p) : m.dropWhile p = m := by
  match m, h with
  | [], _ => rfl
  | c :: t, h =>
    have hh : (l.dropWhile p).head? = some c := by
      obtain ⟨r, hr⟩ := h
      rw [← hr]
      rfl
    have hp : p c = false := by
      have hnot := List.head?_dropWhile_not p l
      rw [hh] at hnot
      exact hnot
    rw [List.dropWhile_cons_of_neg (by simp [hp])]

theorem trimChars_idem (l : List Char) :
    security.trimChars (security.trimChars l) = security.trimChars l := by
  have hA : (security.trimChars l).dropWhile security.jsSpace = security.trimChars l := by
    apply dropWhile_prefix_fixed security.jsSpace l
    show security.trimChars l <+: l.dropWhile security.jsSpace
    rw [← List.reverse_reverse (l.dropWhile security.jsSpace)]
    exact List.reverse_prefix.mpr (List.dropWhile_suffix security.jsSpace)
  have hrev : (security.trimChars l).reverse =
      (l.dropWhile security.jsSpace).reverse.dropWhile security.jsSpace := by
    unfold security.trimChars
    rw [List.reverse_reverse]
  show (((security.trimChars l).dropWhile security.jsSpace).reverse.dropWhile
      security.jsSpace).reverse = security.trimChars l
  rw [hA, hrev, dropWhile_idem]
  rw [← hrev, List.reverse_reverse]

theorem mem_of_mem_trimChars (l : List Char) (c : Char)
    (h : c ∈ security.trimChars l) : c ∈ l := by
  unfold security.trimChars at h
  rw [List.mem_reverse] at h
  exact List.dropWhile_subset _
    (List.mem_reverse.mp (List.dropWhile_subset _ h))

theorem entityFor_nonspecial (c : Char) (h : security.isSpecialChar c = false) :
    security.entityFor c = [c] := by
  unfold security.isSpecialChar at h
  simp only [Bool.or_eq_false_iff, decide_eq_false_iff_not] at h
  obtain ⟨⟨⟨⟨h1, h2⟩, h3⟩, h4⟩, h5⟩ := h
  unfold security.entityFor
  rw [if_neg h1, if_neg h2, if_neg h4, if_neg h3, if_neg h5]

theorem encodeChars_id (l : List Char)
    (h : ∀ c ∈ l, security.isSpecialChar c = false) :
    security.encodeChars l = l := by
  induction l with
  | nil => rfl
  | cons c t ih =>
    show security.entityFor c ++ security.encodeChars t = c :: t
    rw [entityFor_nonspecial c (h c (List.mem_cons_self c t)),
      ih (fun x hx => h x (List.mem_cons_of_mem c hx))]
    rfl

/-- C6 counterexample: `"<"` contains no pre-existing entity sequence, yet
sanitizing twice yields `"&amp;lt;"` while sanitizing once yields `"&lt;"` —
the entity `&` introduced by the first pass is re-encoded by the second. -/
theorem sanitize_not_idempotent_on_lt :
    security.containsEntity "<" = false ∧
    security.sanitizeInput (security.sanitizeInput "<") ≠
      security.sanitizeInput "<" := by
  decide

/-- C6 amended: `sanitizeInput` is idempotent on inputs containing none of
the five characters it encodes (`< > " ' &`); on any input containing one of
them the first pass emits an entity whose `&` the second pass re-encodes. -/
theorem sanitize_idempotent_without_specials (s : String)
    (h : ∀ c ∈ s.toList, security.isSpecialChar c = false) :
    security.sanitizeInput (security.sanitizeInput s) =
      security.sanitizeInput s := by
  have he : security.encodeChars s.toList = s.toList := encodeChars_id _ h
  have houter : (security.sanitizeInput s).toList =
      security.trimChars s.toList := by
    show security.trimChars (security.encodeChars s.toList) =
      security.trimChars s.toList
    rw [he]
  have hclean : ∀ c ∈ (security.sanitizeInput s).toList,
      security.isSpecialChar c = false := by
    intro c hc
    rw [houter] at hc
    exact h c (mem_of_mem_trimChars _ _ hc)
  have hs : security.sanitizeInput s =
      String.mk (security.trimChars s.toList) := by
    show String.mk (security.trimChars (security.encodeChars s.toList)) = _
    rw [he]
  calc security.sanitizeInput (security.sanitizeInput s)
      = String.mk (security.trimChars
          (security.encodeChars (security.sanitizeInput s).toList)) := rfl
    _ = String.mk (security.trimChars (security.sanitizeInput s).toList) := by
          rw [encodeChars_id _ hclean]
    _ = String.mk (security.trimChars (security.trimChars s.toList)) := by
          rw [houter]
    _ = String.mk (security.trimChars s.toList) := by rw [trimChars_idem]
    _ = security.sanitizeInput s := hs.symm

/-- Witness for the C6 theorem on a concrete entity-free input. -/
theorem sanitize_idempotent_without_specials_witness :
    (∀ c ∈ ("  hola mundo  " : String).toList,
      security.isSpecialChar c = false) ∧
    security.sanitizeInput (security.sanitizeInput "  hola mundo  ") =
      security.sanitizeInput "  hola mundo  " :=
  ⟨by decide, sanitize_idempotent_without_specials _ (by decide)⟩

/-! ## C7: idle expiry and the periodic check -/

theorem isSessionExpired_same_activity (now : Int) (st st' : MonitorState)
    (h : st'.lastActivity = st.lastActivity) :
    sessionManager.isSessionExpired now st' = sessionManager.isSessionExpired now st := by
  unfold sessionManager.isSessionExpired
  rw [h]

/-- C7 counterexample: with last activity at 0, the periodic check at
t = 1800001 finds the session idle-expired and invokes `onExpiry`; the
interval is not cancelled, so the next check at t = 1830001 runs and invokes
`onExpiry` again — it does not fire exactly once. -/
theorem idle_expiry_fires_on_every_check :
    (sessionManager.runChecks [1800001, 1830001]
      ⟨some 0, 0, 0⟩).expiryCalls = 2 := by
  decide

/-- C7 amended: `checkSession` never cancels the interval; once the session
is idle-expired and no activity refreshes `lastActivity`, every subsequent
periodic check invokes `onExpiry` again (until the returned cleanup function
stops the interval). -/
theorem expiry_fires_each_tick_while_expired (ticks : List Int)
    (st : MonitorState)
    (h : ∀ t ∈ ticks, sessionManager.isSessionExpired t st = true) :
    (sessionManager.runChecks ticks st).expiryCalls =
      st.expiryCalls + ticks.length ∧
    (sessionManager.runChecks ticks st).lastActivity = st.lastActivity := by
  induction ticks generalizing st with
  | nil => exact ⟨rfl, rfl⟩
  | cons t ts ih =>
    have ht := h t (List.mem_cons_self t ts)
    have hstep : sessionManager.checkSession t st =
        { st with expiryCalls := st.expiryCalls + 1 } := by
      unfold sessionManager.checkSession
      rw [ht]
      simp
    obtain ⟨ih1, ih2⟩ := ih { st with expiryCalls := st.expiryCalls + 1 }
      (fun x hx =>
        (isSessionExpired_same_activity x st
          { st with expiryCalls := st.expiryCalls + 1 } rfl).trans
          (h x (List.mem_cons_of_mem t hx)))
    constructor
    · show (sessionManager.runChecks ts (sessionManager.checkSession t st)).expiryCalls = _
      rw [hstep, ih1]
      simp [List.length_cons]
      omega
    · show (sessionManager.runChecks ts (sessionManager.checkSession t st)).lastActivity = _
      rw [hstep, ih2]

/-- Witness for the C7 theorem: two ticks past the idle limit. -/
theorem expiry_fires_each_tick_while_expired_witness :
    (∀ t ∈ ([1800001, 1830001] : List Int),
      sessionManager.isSessionExpired t ⟨some 0, 0, 0⟩ = true) ∧
    (sessionManager.runChecks [1800001, 1830001]
        (⟨some 0, 0, 0⟩ : MonitorState)).expiryCalls =
      (⟨some 0, 0, 0⟩ : MonitorState).expiryCalls +
        ([1800001, 1830001] : List Int).length :=
  ⟨by decide, (expiry_fires_each_tick_while_expired [1800001, 1830001]
      ⟨some 0, 0, 0⟩ (by decide)).1⟩

/-! ## C4: session-expiry monotonicity -/

/-- C4 counterexample: a login whose server response carries
`expiresIn = 86400` (24 h) stores expiry 86400000; a successful refresh at
t = 1000 then stores expiry 1000 + 3600000 = 3601000, strictly earlier —
`expiresAt` is not monotonically non-decreasing over prior expiries set by
login. -/
theorem refresh_can_shrink_expiry :
    ((authProvider.loginStore "a0" (some "r0") "u" 86400 0
        ⟨none, none, none, none⟩).sessionExpiry = some 86400000) ∧
    ((refreshSuccess 1 "a1" none 1000 (handle401 1 (initialInterceptorState
        (authProvider.loginStore "a0" (some "r0") "u" 86400 0
          ⟨none, none, none, none⟩)))).store.sessionExpiry = some 3601000) ∧
    (3601000 : Int) < 86400000 := by
  decide

/-- C4 amended: every successful refresh stores expiry = its own completion
time + 3600000 ms, so across successive refreshes at non-decreasing times the
stored expiry is non-decreasing; monotonicity with respect to a login-set
expiry fails whenever the login's `expiresIn` exceeds the hour granted by the
refresh (see the counterexample). -/
theorem refresh_expiry_monotonic_between_refreshes
    (s : InterceptorState) (r1 r2 : Nat) (a1 a2 : String)
    (n1 n2 : Option String) (t1 t2 : Int) (h : t1 ≤ t2) :
    (refreshSuccess r1 a1 n1 t1 s).store.sessionExpiry = some (t1 + 3600000) ∧
    ∀ e1 e2,
      (refreshSuccess r1 a1 n1 t1 s).store.sessionExpiry = some e1 →
      (refreshSuccess r2 a2 n2 t2
        (refreshSuccess r1 a1 n1 t1 s)).store.sessionExpiry = some e2 →
      e1 ≤ e2 := by
  refine ⟨rfl, ?_⟩
  intro e1 e2 h1 h2
  simp only [refreshSuccess, Option.some.injEq] at h1 h2
  omega

/-- Witness for the C4 theorem: two refreshes at times 1000 ≤ 5000. -/
theorem refresh_expiry_monotonic_between_refreshes_witness :
    ((1000 : Int) ≤ 5000) ∧
    ((refreshSuccess 1 "a1" none 1000 (initialInterceptorState
        ⟨some "a", some "r", some "u", some 0⟩)).store.sessionExpiry =
      some (1000 + 3600000)) ∧
    ((refreshSuccess 1 "a1" none 1000 (initialInterceptorState
        ⟨some "a", some "r", some "u", some 0⟩)).store.sessionExpiry =
          some 3601000 →
      (refreshSuccess 2 "a2" none 5000 (refreshSuccess 1 "a1" none 1000
        (initialInterceptorState
          ⟨some "a", some "r", some "u", some 0⟩))).store.sessionExpiry =
          some 3603600000 →
      (3601000 : Int) ≤ 3603600000) :=
  ⟨by norm_num,
   (refresh_expiry_monotonic_between_refreshes _ 1 2 "a1" "a2" none none
      1000 5000 (by norm_num)).1,
   fun ha hb => (refresh_expiry_monotonic_between_refreshes _ 1 2 "a1" "a2"
      none none 1000 5000 (by norm_num)).2 3601000 3603600000 ha hb⟩

/-! ## C8: no refresh token stored -/

/-- C8: a 401 on a not-yet-retried request while no refresh token is stored
fails the request immediately (it is rejected), clears the session, signals
one redirect to login, and issues no refresh network call. -/
theorem no_refresh_token_fails_fast (s : InterceptorState) (r : Nat)
    (h1 : s.retriedSet.contains r = false)
    (h2 : s.isRefreshing = false)
    (h3 : s.store.refreshToken = none) :
    (handle401 r s).refreshCalls = s.refreshCalls ∧
    r ∈ (handle401 r s).rejected ∧
    (handle401 r s).store = ⟨none, none, none, none⟩ ∧
    (handle401 r s).redirects = s.redirects + 1 := by
  unfold handle401
  rw [h1, h2]
  simp [h3, storage.clearAuth]

/-- Witness for C8: expired access token present, no refresh token. -/
theorem no_refresh_token_fails_fast_witness :
    ((initialInterceptorState
        ⟨some "a", none, some "u", some 0⟩).retriedSet.contains 7 = false) ∧
    ((initialInterceptorState
        ⟨some "a", none, some "u", some 0⟩).isRefreshing = false) ∧
    ((initialInterceptorState
        ⟨some "a", none, some "u", some 0⟩).store.refreshToken = none) ∧
    ((handle401 7 (initialInterceptorState
        ⟨some "a", none, some "u", some 0⟩)).refreshCalls =
      (initialInterceptorState
        ⟨some "a", none, some "u", some 0⟩).refreshCalls ∧
     7 ∈ (handle401 7 (initialInterceptorState
        ⟨some "a", none, some "u", some 0⟩)).rejected ∧
     (handle401 7 (initialInterceptorState
        ⟨some "a", none, some "u", some 0⟩)).store = ⟨none, none, none, none⟩ ∧
     (handle401 7 (initialInterceptorState
        ⟨some "a", none, some "u", some 0⟩)).redirects =
      (initialInterceptorState
        ⟨some "a", none, some "u", some 0⟩).redirects + 1) :=
  ⟨rfl, rfl, rfl,
   no_refresh_token_fails_fast (initialInterceptorState
      ⟨some "a", none, some "u", some 0⟩) 7 rfl rfl rfl⟩

/-! ## C2: retry-flag discipline -/

/-- C2 counterexample: request 1 triggers the refresh (and is marked
`_retry`), request 2 races the same expiry and is queued.  The refresh
succeeds and request 2 is replayed with the new token — but it was never
marked `_retry`, so a second 401 on its replay is treated as a fresh expiry
and issues a SECOND refresh network call. -/
theorem replayed_queued_request_retriggers_refresh :
    ((2, "tok1") ∈ (refreshSuccess 1 "tok1" none 0
        (handle401 2 (handle401 1 (initialInterceptorState
          ⟨some "a0", some "r0", some "u", some 0⟩)))).resolvedWith) ∧
    ((handle401 2 (refreshSuccess 1 "tok1" none 0
        (handle401 2 (handle401 1 (initialInterceptorState
          ⟨some "a0", some "r0", some "u", some 0⟩))))).refreshCalls = 2) := by
  decide

/-- C2 amended: only the request that triggers the refresh is marked
"already retried" before the refresh is issued, and a 401 on a request
already marked never triggers a new refresh call; queued requests are
replayed without the mark (so a second 401 on their replay does trigger a
new refresh — see the counterexample). -/
theorem retry_flag_marks_trigger_only (s : InterceptorState) (r : Nat) :
    (s.retriedSet.contains r = true →
      (handle401 r s).refreshCalls = s.refreshCalls ∧
      (handle401 r s).isRefreshing = s.isRefreshing) ∧
    (s.retriedSet.contains r = false → s.isRefreshing = false →
      (handle401 r s).retriedSet.contains r = true) := by
  constructor
  · intro h
    unfold handle401
    rw [h]
    exact ⟨rfl, rfl⟩
  · intro h hr
    unfold handle401
    rw [h, hr]
    simp only [Bool.false_eq_true, if_false]
    cases hm : s.store.refreshToken with
    | none => simp
    | some t => simp

/-- Witness for the C2 theorem: a marked request never re-triggers; an
unmarked request in idle state is marked by its own handler run. -/
theorem retry_flag_marks_trigger_only_witness :
    (((⟨false, [], [5], 1, [], [], ⟨some "a", some "r", some "u", some 0⟩, 0⟩ :
        InterceptorState).retriedSet.contains 5 = true) ∧
      ((handle401 5 (⟨false, [], [5], 1, [], [],
          ⟨some "a", some "r", some "u", some 0⟩, 0⟩ :
          InterceptorState)).refreshCalls =
        (⟨false, [], [5], 1, [], [],
          ⟨some "a", some "r", some "u", some 0⟩, 0⟩ :
          InterceptorState).refreshCalls ∧
       (handle401 5 (⟨false, [], [5], 1, [], [],
          ⟨some "a", some "r", some "u", some 0⟩, 0⟩ :
          InterceptorState)).isRefreshing =
        (⟨false, [], [5], 1, [], [],
          ⟨some "a", some "r", some "u", some 0⟩, 0⟩ :
          InterceptorState).isRefreshing)) ∧
    ((handle401 1 (initialInterceptorState
        ⟨some "a", some "r", some "u", some 0⟩)).retriedSet.contains 1 = true) :=
  ⟨⟨rfl, (retry_flag_marks_trigger_only
      (⟨false, [], [5], 1, [], [], ⟨some "a", some "r", some "u", some 0⟩, 0⟩ :
        InterceptorState) 5).1 rfl⟩,
   (retry_flag_marks_trigger_only (initialInterceptorState
      ⟨some "a", some "r", some "u", some 0⟩) 1).2 rfl rfl⟩

/-! ## C1: single-flight refresh -/

theorem queue_while_refreshing (rest : List Nat) (s : InterceptorState)
    (h1 : s.isRefreshing = true)
    (h2 : ∀ r ∈ rest, s.retriedSet.contains r = false) :
    runConcurrent401s rest s = { s with failedQueue := s.failedQueue ++ rest } := by
  induction rest generalizing s with
  | nil => simp [runConcurrent401s]
  | cons r rs ih =>
    have hr := h2 r (List.mem_cons_self r rs)
    have hstep : handle401 r s = { s with failedQueue := s.failedQueue ++ [r] } := by
      unfold handle401
      rw [hr, h1]
      simp
    show runConcurrent401s rs (handle401 r s) = _
    rw [hstep,
      ih { s with failedQueue := s.failedQueue ++ [r] } h1
        (fun x hx => h2 x (List.mem_cons_of_mem r hx))]
    simp

/-- C1: N requests (the trigger `r0` and the distinct batch `rest`) each
receive a 401 while the stored token is expired and a refresh token is
present, and all enter the interceptor before the refresh completes: exactly
one refresh network call is made, and on refresh success every one of them is
resolved with the identical new access token. -/
theorem single_flight_refresh (r0 : Nat) (rest : List Nat) (st : Storage)
    (rt tok : String) (nrt : Option String) (now : Int)
    (hrt : st.refreshToken = some rt) (hnd : r0 ∉ rest) :
    (runConcurrent401s (r0 :: rest) (initialInterceptorState st)).refreshCalls = 1 ∧
    ∀ r ∈ r0 :: rest,
      (r, tok) ∈ (refreshSuccess r0 tok nrt now
        (runConcurrent401s (r0 :: rest) (initialInterceptorState st))).resolvedWith := by
  have hfirst : handle401 r0 (initialInterceptorState st) =
      (⟨true, [], [r0], 1, [], [], st, 0⟩ : InterceptorState) := by
    unfold handle401 initialInterceptorState
    simp [hrt]
  have hq : runConcurrent401s (r0 :: rest) (initialInterceptorState st) =
      (⟨true, rest, [r0], 1, [], [], st, 0⟩ : InterceptorState) := by
    show runConcurrent401s rest (handle401 r0 (initialInterceptorState st)) = _
    rw [hfirst,
      queue_while_refreshing rest (⟨true, [], [r0], 1, [], [], st, 0⟩ :
        InterceptorState) rfl
        (fun x hx => by
          have hne : x ≠ r0 := fun he => hnd (he ▸ hx)
          simp_all [List.contains_cons])]
    rfl
  rw [hq]
  refine ⟨rfl, ?_⟩
  intro r hr
  rcases List.mem_cons.mp hr with rfl | hmem
  · simp [refreshSuccess]
  · simp only [refreshSuccess, List.nil_append, List.mem_append, List.mem_map]
    exact Or.inl ⟨r, hmem, rfl⟩

/-- Witness for C1: three concurrent requests, one refresh call, all three
resolved with the same new token. -/
theorem single_flight_refresh_witness :
    ((⟨some "a", some "r", some "u", some 0⟩ : Storage).refreshToken = some "r") ∧
    (1 ∉ [2, 3]) ∧
    ((runConcurrent401s [1, 2, 3] (initialInterceptorState
        ⟨some "a", some "r", some "u", some 0⟩)).refreshCalls = 1 ∧
     ∀ r ∈ [1, 2, 3],
       (r, "T") ∈ (refreshSuccess 1 "T" none 0
         (runConcurrent401s [1, 2, 3] (initialInterceptorState
           ⟨some "a", some "r", some "u", some 0⟩))).resolvedWith) :=
  ⟨rfl, by decide,
   single_flight_refresh 1 [2, 3] ⟨some "a", some "r", some "u", some 0⟩
     "r" "T" none 0 rfl (by decide)⟩
